import Mathlib

/-!
Shallow embedding of the dataqe-framework comparison and query-preprocessing
core (src/dataqe_framework/comparison/comparator.py, preprocessor.py,
executor.py), together with theorems settling the spec claims.

Python scalar values flowing through the comparator are modelled by `Value`
(None, numbers as rationals, strings).  Python exceptions are modelled with
`Option`/`Except`: a helper returning `none`/`.error` corresponds to a raised
exception at that point in the Python code; the translation catches them
exactly where the Python try/except blocks do.
-/

namespace DataQE

/-- A Python scalar value as it appears in this codebase: None, a number
(int/float, modelled as a rational), or a string. -/
inductive Value where
  | vNone : Value
  | vNum : ℚ → Value
  | vStr : String → Value
deriving DecidableEq, Repr

open Value

/-- Python truthiness for the modelled scalars: None, 0 and "" are falsy. -/
def pyTruthy : Value → Bool
  | vNone => false
  | vNum q => q ≠ 0
  | vStr s => s ≠ ""

/-- Python `==` on the modelled scalars; comparisons across types are False,
never an error. -/
def pyEq : Value → Value → Bool
  | vNone, vNone => true
  | vNum a, vNum b => a == b
  | vStr a, vStr b => a == b
  | _, _ => false

/-- Python `<`: defined within numbers and within strings; `none` models the
TypeError raised on a cross-type or None order comparison. -/
def pyLt : Value → Value → Option Bool
  | vNum a, vNum b => some (decide (a < b))
  | vStr a, vStr b => some (decide (a < b))
  | _, _ => none

/-- Python `<=` (same domain as `pyLt`). -/
def pyLe : Value → Value → Option Bool
  | vNum a, vNum b => some (decide (a ≤ b))
  | vStr a, vStr b => some (decide (a ≤ b))
  | _, _ => none

/-- comparator._apply_operator: the operator is whatever value the config held,
compared against the six operator tokens with Python `==`; a TypeError from an
order comparison is caught by the try/except and yields False, and an operator
matching no branch falls through to False. -/
def apply_operator (value : Value) (op : Value) (threshold : Value) : Bool :=
  if pyEq op (vStr "<=") then (pyLe value threshold).getD false
  else if pyEq op (vStr ">=") then (pyLe threshold value).getD false
  else if pyEq op (vStr "<") then (pyLt value threshold).getD false
  else if pyEq op (vStr ">") then (pyLt threshold value).getD false
  else if pyEq op (vStr "==") then pyEq value threshold
  else if pyEq op (vStr "!=") then ! pyEq value threshold
  else false

/-! ### Parsing the expected-condition string

comparator._parse_expected_condition strips the string and matches it against
the regular expression `^(<=|>=|==|!=|<|>)\s*(-?\d+(?:\.\d+)?)\s*$`, returning
the operator token and the number as a float. -/

/-- Strip whitespace from both ends of a character list (Python str.strip). -/
def stripChars (l : List Char) : List Char :=
  ((l.dropWhile Char.isWhitespace).reverse.dropWhile Char.isWhitespace).reverse

/-- Match one of the operator tokens at the head of the input, two-character
tokens first, exactly as the alternation `<=|>=|==|!=|<|>` does. -/
def parseOpToken : List Char → Option (String × List Char)
  | '<' :: '=' :: r => some ("<=", r)
  | '>' :: '=' :: r => some (">=", r)
  | '=' :: '=' :: r => some ("==", r)
  | '!' :: '=' :: r => some ("!=", r)
  | '<' :: r => some ("<", r)
  | '>' :: r => some (">", r)
  | _ => none

/-- Numeric value of a digit list, most significant first. -/
def natOfDigits (l : List Char) : Nat :=
  l.foldl (fun a c => a * 10 + (c.toNat - 48)) 0

/-- Match `-?\d+(?:\.\d+)?` at the head of the input and return its value as a
rational (the float conversion of the matched text) plus the rest.  A dot not
followed by a digit is not consumed, as in the regular expression. -/
def parseNumber (l : List Char) : Option (ℚ × List Char) :=
  let (neg, l1) := match l with
    | '-' :: r => (true, r)
    | _ => (false, l)
  let ds := l1.takeWhile Char.isDigit
  let l2 := l1.dropWhile Char.isDigit
  if ds.isEmpty then none
  else
    let (q, rest) := match l2 with
      | '.' :: l3 =>
        let fs := l3.takeWhile Char.isDigit
        let l4 := l3.dropWhile Char.isDigit
        if fs.isEmpty then ((natOfDigits ds : ℚ), l2)
        else ((natOfDigits ds : ℚ) + (natOfDigits fs : ℚ) / (10 ^ fs.length : ℚ), l4)
      | _ => ((natOfDigits ds : ℚ), l2)
    some (if neg then -q else q, rest)

/-- comparator._parse_expected_condition: non-strings never parse; a string is
stripped and must be an operator token, optional whitespace, a decimal number,
optional whitespace, end of string. -/
def parse_expected_condition (expected : Value) : Option (String × ℚ) :=
  match expected with
  | vStr s =>
    match parseOpToken (stripChars s.data) with
    | none => none
    | some (op, rest) =>
      match parseNumber (rest.dropWhile Char.isWhitespace) with
      | none => none
      | some (q, rest2) =>
        if (rest2.dropWhile Char.isWhitespace).isEmpty then some (op, q) else none
  | _ => none

/-! ### Test configuration

The relevant slices of the test-config dictionary.  A `.get` on a Python dict
returns None both for a missing key and for a key stored with value None, so
optional scalar fields are plain `Value` with `vNone` for both cases.  The
`comparisons.get("threshold")` sub-dictionary is `Option ThresholdConfig`
(`none` for the falsy absent/None/empty cases; an empty dict is falsy in
Python, and behaviour below is identical either way because every field of an
empty dict reads as None). -/

structure ThresholdConfig where
  condition : Value
  value : Value
  limit : Value
deriving DecidableEq, Repr

structure SourceConfig where
  expected : Value
deriving DecidableEq, Repr

structure ComparisonsConfig where
  threshold : Option ThresholdConfig
deriving DecidableEq, Repr

structure TestConfig where
  source : SourceConfig
  comparisons : ComparisonsConfig
deriving DecidableEq, Repr

/-- The target_value-is-None branch of comparator.compare_values: parse
source.expected as a condition; on success apply it to the source value, else
fall back to Python truthiness of the source value. -/
def compareSourceOnly (source_value : Value) (test_config : TestConfig) : String :=
  match parse_expected_condition test_config.source.expected with
  | some (op, threshold) =>
    if apply_operator source_value (vStr op) (vNum threshold) then "PASS" else "FAIL"
  | none =>
    if pyTruthy source_value then "PASS" else "FAIL"

/-- Body of the percentage-threshold try block in compare_values.  The
catch-all arm models the except (TypeError, ValueError) handler: subtraction
or division on a non-number raises, and so does comparing the computed float
difference against a non-numeric limit; both are caught and give FAIL. -/
def percentageCompare (source_value target_value limit : Value) : String :=
  if pyEq target_value (vNum 0) then
    if pyEq source_value target_value then "PASS" else "FAIL"
  else
    match source_value, target_value, limit with
    | vNum s, vNum t, vNum l =>
      if |(s - t) / t| * 100 > l then "FAIL" else "PASS"
    | _, _, _ => "FAIL"

/-- Body of the absolute-threshold try block in compare_values; the catch-all
arm models the except (TypeError, ValueError) handler. -/
def absoluteCompare (source_value target_value limit : Value) : String :=
  match source_value, target_value, limit with
  | vNum s, vNum t, vNum l =>
    if |s - t| > l then "FAIL" else "PASS"
  | _, _, _ => "FAIL"

/-- comparator.compare_values. -/
def compare_values (source_value target_value : Value) (test_config : TestConfig) : String :=
  if target_value = vNone then
    compareSourceOnly source_value test_config
  else if pyEq source_value target_value then "PASS"
  else
    match test_config.comparisons.threshold with
    | none => "FAIL"
    | some th =>
      if pyTruthy th.condition && ! pyTruthy th.value then
        if apply_operator source_value th.condition target_value then "FAIL" else "PASS"
      else if pyEq th.value (vStr "percentage") && th.limit != vNone then
        percentageCompare source_value target_value th.limit
      else if pyEq th.value (vStr "absolute") && th.limit != vNone then
        absoluteCompare source_value target_value th.limit
      else "FAIL"

/-! ### Preprocessor (preprocessor.py)

Connector result rows are dictionaries from string keys to scalars, modelled
as association lists in insertion order; dataset mappings are dictionaries
keyed by the row value stored under "source" (any scalar), modelled likewise
with Python dict semantics (insert updates in place, lookup by `==`).  Python
exceptions are `Except PyErr`; the connector collaborator is a function from
the query string to the rows it yields or the error it raises. -/

/-- A Python exception, distinguished only as far as the claims need. -/
inductive PyErr where
  | typeError : PyErr
  | indexError : PyErr
  | connectorError : String → PyErr
deriving DecidableEq, Repr

/-- A result row: a dict from string column names to scalar values. -/
def Row := List (String × Value)

/-- row.get(k): the stored value, or None when the key is absent. -/
def rowGet (r : Row) (k : String) : Value :=
  match r.lookup k with
  | some v => v
  | none => vNone

/-- k in row. -/
def rowHas (r : Row) (k : String) : Bool :=
  (r.lookup k).isSome

/-- Python `a or b` on scalars: the first operand when truthy, else the second. -/
def pyOr (a b : Value) : Value :=
  if pyTruthy a then a else b

/-- One entry of a dataset mapping: the two release values stored for a
source (each may be any scalar the row held, including None). -/
structure MappingEntry where
  current_release : Value
  previous_release : Value
deriving DecidableEq, Repr

/-- A DatasetMapping: a dict keyed by the source value. -/
def Dict := List (Value × MappingEntry)

/-- Dict lookup by Python `==` on the key. -/
def dictLookup (k : Value) : Dict → Option MappingEntry
  | [] => none
  | (k', v) :: rest => if pyEq k k' then some v else dictLookup k rest

/-- Dict insert with Python semantics: an existing key keeps its position and
gets the new value; a new key is appended. -/
def dictInsert (k : Value) (v : MappingEntry) : Dict → Dict
  | [] => [(k, v)]
  | (k', v') :: rest =>
    if pyEq k k' then (k, v) :: rest else (k', v') :: dictInsert k v rest

/-- The release pair the mapping loop extracts from one row, using Python
`or` to prefer the first naming convention when its value is truthy. -/
def rowEntry (r : Row) : MappingEntry :=
  ⟨pyOr (rowGet r "current_release") (rowGet r "curr_release_label"),
   pyOr (rowGet r "previous_release") (rowGet r "prev_release_label")⟩

/-- The row loop of QueryPreprocessor.get_dataset_mappings: rows without a
"source" key are skipped, the rest insert their extracted entry under the
value stored at "source". -/
def buildMappings : List Row → Dict → Dict
  | [], acc => acc
  | row :: rest, acc =>
    if rowHas row "source" then
      buildMappings rest (dictInsert (rowGet row "source") (rowEntry row) acc)
    else
      buildMappings rest acc

/-- QueryPreprocessor.get_dataset_mappings: empty loaded queries or a missing
key give an empty mapping; otherwise the looked-up query is executed through
the connector and the rows are folded into a mapping, any connector error
being re-raised. -/
def get_dataset_mappings (preprocessor_queries : List (String × String))
    (config_query_key : String) (connector : String → Except PyErr (List Row)) :
    Except PyErr Dict :=
  if preprocessor_queries.isEmpty then .ok []
  else
    match preprocessor_queries.lookup config_query_key with
    | none => .ok []
    | some query =>
      match connector query with
      | .ok results => .ok (buildMappings results [])
      | .error e => .error e

/-- Python str.replace for a non-empty pattern: scan left to right, replacing
each leftmost non-overlapping occurrence.  The fuel argument only bounds the
number of scan steps so the recursion is structural; every step consumes at
least one character of the text, so `s.length` fuel always suffices and
`strReplace` below supplies it.  (The Python empty-pattern case, which
interleaves the replacement everywhere, never arises here: the placeholder
patterns always end in "_CURR_WEEK"/"_PREV_WEEK"; on an empty pattern this
function is the identity.) -/
def strReplaceAux : Nat → List Char → List Char → List Char → List Char
  | 0, s, _, _ => s
  | fuel + 1, s, pat, rep =>
    match s with
    | [] => []
    | c :: rest =>
      if !pat.isEmpty && pat.isPrefixOf (c :: rest) then
        rep ++ strReplaceAux fuel ((c :: rest).drop pat.length) pat rep
      else
        c :: strReplaceAux fuel rest pat rep

def strReplace (s pat rep : List Char) : List Char :=
  strReplaceAux s.length s pat rep

/-- str.replace lifted to strings. -/
def pyReplace (s pat rep : String) : String :=
  String.mk (strReplace s.data pat.data rep.data)

/-- Python str.upper: uppercase every character. -/
def pyUpper (s : String) : String :=
  String.mk (s.data.map Char.toUpper)

/-- QueryPreprocessor.replace_placeholders_in_query.  Empty or source-less
mappings, and entries whose release values are falsy, return the query
unchanged; otherwise both placeholders are replaced in sequence.  A truthy
non-string release value makes Python str.replace raise a TypeError, which
this method does not catch. -/
def replace_placeholders_in_query (query source_name : String) (mappings : Dict) :
    Except PyErr String :=
  if mappings.isEmpty then .ok query
  else
    match dictLookup (vStr source_name) mappings with
    | none => .ok query
    | some m =>
      if ! pyTruthy m.current_release || ! pyTruthy m.previous_release then .ok query
      else
        match m.current_release, m.previous_release with
        | vStr cur, vStr prev =>
          .ok (pyReplace
                (pyReplace query (pyUpper source_name ++ "_CURR_WEEK") cur)
                (pyUpper source_name ++ "_PREV_WEEK") prev)
        | _, _ => .error .typeError

/-- Truthiness of an Optional[str] argument: None and "" are falsy. -/
def optStrTruthy : Option String → Bool
  | none => false
  | some s => s ≠ ""

/-- QueryPreprocessor.process_query: a falsy config_query_key is an identity
fast path; otherwise mappings are fetched (errors propagate), and with an
empty mapping or falsy source_name the query is returned unchanged, else
placeholder replacement runs. -/
def process_query (preprocessor_queries : List (String × String)) (query : String)
    (config_query_key : Option String) (source_name : Option String)
    (connector : String → Except PyErr (List Row)) : Except PyErr String :=
  match config_query_key with
  | none => .ok query
  | some key =>
    if key = "" then .ok query
    else
      match get_dataset_mappings preprocessor_queries key connector with
      | .error e => .error e
      | .ok mappings =>
        if mappings.isEmpty || ! optStrTruthy source_name then .ok query
        else replace_placeholders_in_query query ((source_name.getD "")) mappings

/-! ### Execution loop glue (executor.py) -/

/-- ValidationExecutor._extract_value: an empty (falsy) result gives None,
otherwise the first value of the first row; an empty first row raises an
IndexError on `list(result[0].values())[0]`. -/
def extract_value : List Row → Except PyErr Value
  | [] => .ok vNone
  | row :: _ =>
    match row with
    | [] => .error .indexError
    | (_, v) :: _ => .ok v

/-- ValidationExecutor._process_query_with_preprocessor: a falsy
config_query_key, or an uninitialised preprocessor (modelled by its loaded
query table being absent), returns the query unchanged; otherwise
process_query runs and any error it raises is caught, falling back to the
original query. -/
def process_query_with_preprocessor
    (preprocessor : Option (List (String × String))) (query : String)
    (config_query_key : Option String) (source_name : Option String)
    (connector : String → Except PyErr (List Row)) : String :=
  if ! optStrTruthy config_query_key then query
  else
    match preprocessor with
    | none => query
    | some pq =>
      match process_query pq query config_query_key source_name connector with
      | .ok processed => processed
      | .error _ => query

/-! ### Spec-side definition for the refinement check of the mapping rows -/

/-- Modelled from the spec claim wording for the row-extraction rule of
get_dataset_mappings: the first non-null of the two candidate fields.  This is
the claimed behaviour, to be compared with the `pyOr` the code actually uses. -/
def firstNonNull (a b : Value) : Value :=
  if a ≠ vNone then a else b

/-! ### Concrete configurations and inputs used by witnesses -/

def condGTConfig : TestConfig := ⟨⟨vNone⟩, ⟨some ⟨vStr ">", vNone, vNone⟩⟩⟩

def pctConfig : TestConfig := ⟨⟨vNone⟩, ⟨some ⟨vNone, vStr "percentage", vNum 5⟩⟩⟩

def absConfig : TestConfig := ⟨⟨vNone⟩, ⟨some ⟨vNone, vStr "absolute", vNum 5⟩⟩⟩

def expConfig : TestConfig := ⟨⟨vStr "<=2"⟩, ⟨none⟩⟩

def emptyConfig : TestConfig := ⟨⟨vNone⟩, ⟨none⟩⟩

def c8row : Row :=
  [("source", vStr "s"), ("current_release", vStr ""),
   ("curr_release_label", vStr "x"), ("previous_release", vStr "p")]

def bcbsaMappings : Dict :=
  [(vStr "bcbsa", ⟨vStr "bcbsa_export1", vStr "bcbsa_export3"⟩)]

def failConnector : String → Except PyErr (List Row) :=
  fun _ => .error (.connectorError "boom")

/-! ### Basic lemmas -/

lemma pyEq_iff (a b : Value) : pyEq a b = true ↔ a = b := by
  cases a <;> cases b <;> simp [pyEq]

lemma pyEq_false_iff (a b : Value) : pyEq a b = false ↔ a ≠ b := by
  rw [← Bool.not_eq_true, not_iff_not, pyEq_iff]

/-! ### Claim theorems -/

/-- C4: with a present target and source equal to target (Python `==`),
compare_values returns PASS whatever the threshold configuration is. -/
theorem equality_short_circuit (sv tv : Value) (cfg : TestConfig)
    (htv : tv ≠ vNone) (heq : pyEq sv tv = true) :
    compare_values sv tv cfg = "PASS" := by
  unfold compare_values
  rw [if_neg htv, if_pos heq]

theorem equality_short_circuit_witness :
    compare_values (vNum 7) (vNum 7) condGTConfig = "PASS" :=
  equality_short_circuit (vNum 7) (vNum 7) condGTConfig (by decide) (by decide)

/-- C1: with present, unequal source and target and a threshold whose
condition is set (truthy) and value not set (falsy), compare_values is FAIL
exactly when _apply_operator applied to (source, condition, target) holds,
and PASS otherwise — the condition describes the disallowed relationship. -/
theorem condition_threshold_inverted (sv tv : Value) (cfg : TestConfig)
    (th : ThresholdConfig)
    (hsv : sv ≠ vNone) (htv : tv ≠ vNone) (hne : pyEq sv tv = false)
    (hth : cfg.comparisons.threshold = some th)
    (hc : pyTruthy th.condition = true) (hv : pyTruthy th.value = false) :
    compare_values sv tv cfg =
      if apply_operator sv th.condition tv then "FAIL" else "PASS" := by
  unfold compare_values
  rw [if_neg htv, hne, hth]
  simp [hc, hv]

theorem condition_threshold_inverted_witness :
    compare_values (vNum 5) (vNum 3) condGTConfig = "FAIL" ∧
    compare_values (vNum 2) (vNum 3) condGTConfig = "PASS" :=
  ⟨(condition_threshold_inverted (vNum 5) (vNum 3) condGTConfig
      ⟨vStr ">", vNone, vNone⟩ (by decide) (by decide) (by decide) rfl
      (by decide) (by decide)).trans (by decide),
   (condition_threshold_inverted (vNum 2) (vNum 3) condGTConfig
      ⟨vStr ">", vNone, vNone⟩ (by decide) (by decide) (by decide) rfl
      (by decide) (by decide)).trans (by decide)⟩

lemma compare_values_percentage (sv tv : Value) (cfg : TestConfig)
    (th : ThresholdConfig)
    (htv : tv ≠ vNone) (hne : pyEq sv tv = false)
    (hth : cfg.comparisons.threshold = some th)
    (hv : pyEq th.value (vStr "percentage") = true) (hl : th.limit ≠ vNone) :
    compare_values sv tv cfg = percentageCompare sv tv th.limit := by
  have hveq : th.value = vStr "percentage" := (pyEq_iff _ _).mp hv
  have g1 : (pyTruthy th.condition && ! pyTruthy th.value) = false := by
    rw [hveq]; simp [pyTruthy]
  have g2 : (pyEq th.value (vStr "percentage") && (th.limit != vNone)) = true := by
    rw [hv]; simpa [bne_iff_ne] using hl
  unfold compare_values
  rw [if_neg htv, hne, hth]
  simp only [g1, g2]
  simp

/-- C2: with present, unequal source and target, threshold.value equal to
"percentage" and threshold.limit set: a zero target gives FAIL; for numeric
operands and a numeric limit the result is PASS iff
abs((source - target) / target) * 100 is at most the limit; and a non-numeric
source or target gives FAIL. -/
theorem percentage_threshold_semantics (sv tv : Value) (cfg : TestConfig)
    (th : ThresholdConfig)
    (hsv : sv ≠ vNone) (htv : tv ≠ vNone) (hne : pyEq sv tv = false)
    (hth : cfg.comparisons.threshold = some th)
    (hv : pyEq th.value (vStr "percentage") = true) (hl : th.limit ≠ vNone) :
    (pyEq tv (vNum 0) = true → compare_values sv tv cfg = "FAIL") ∧
    (∀ s t l : ℚ, sv = vNum s → tv = vNum t → th.limit = vNum l → t ≠ 0 →
      (compare_values sv tv cfg = "PASS" ↔ |(s - t) / t| * 100 ≤ l)) ∧
    (((∀ s : ℚ, sv ≠ vNum s) ∨ (∀ t : ℚ, tv ≠ vNum t)) →
      compare_values sv tv cfg = "FAIL") := by
  rw [compare_values_percentage sv tv cfg th htv hne hth hv hl]
  refine ⟨fun h0 => ?_, fun s t l hs ht hlim ht0 => ?_, fun hnn => ?_⟩
  · simp [percentageCompare, h0, hne]
  · subst hs; subst ht
    rw [hlim]
    have h0 : pyEq (vNum t) (vNum 0) = false := by
      rw [pyEq_false_iff]; simpa using ht0
    unfold percentageCompare
    rw [if_neg (by simp [h0])]
    have hred : (match vNum s, vNum t, vNum l with
        | vNum s, vNum t, vNum l => if |(s - t) / t| * 100 > l then "FAIL" else "PASS"
        | _, _, _ => "FAIL") =
        (if |(s - t) / t| * 100 > l then "FAIL" else "PASS") := rfl
    rw [hred]
    rcases le_or_lt (|(s - t) / t| * 100) l with hle | hgt
    · rw [if_neg (not_lt.mpr hle)]
      simp [hle]
    · rw [if_pos hgt]
      constructor
      · intro h; exact absurd h (by decide)
      · intro h; exact absurd h (not_le.mpr hgt)
  · unfold percentageCompare
    split
    · simp [hne]
    · rcases hnn with hnn | hnn
      · cases sv with
        | vNum s => exact absurd rfl (hnn s)
        | vNone => cases tv <;> rfl
        | vStr s => cases tv <;> rfl
      · cases tv with
        | vNum t => exact absurd rfl (hnn t)
        | vNone => cases sv <;> rfl
        | vStr t => cases sv <;> rfl

theorem percentage_threshold_semantics_witness :
    compare_values (vNum 5) (vNum 0) pctConfig = "FAIL" ∧
    compare_values (vNum 104) (vNum 100) pctConfig = "PASS" ∧
    compare_values (vStr "a") (vNum 3) pctConfig = "FAIL" :=
  ⟨(percentage_threshold_semantics (vNum 5) (vNum 0) pctConfig
      ⟨vNone, vStr "percentage", vNum 5⟩ (by decide) (by decide) (by decide)
      rfl (by decide) (by decide)).1 (by decide),
   ((percentage_threshold_semantics (vNum 104) (vNum 100) pctConfig
      ⟨vNone, vStr "percentage", vNum 5⟩ (by decide) (by decide) (by decide)
      rfl (by decide) (by decide)).2.1 104 100 5 rfl rfl rfl
      (by norm_num)).mpr (by rw [abs_of_nonneg (by norm_num)]; norm_num),
   (percentage_threshold_semantics (vStr "a") (vNum 3) pctConfig
      ⟨vNone, vStr "percentage", vNum 5⟩ (by decide) (by decide) (by decide)
      rfl (by decide) (by decide)).2.2
      (Or.inl fun s h => Value.noConfusion h)⟩

/-- C3: with target absent, a parsing source.expected drives the verdict
through _apply_operator, and a non-parsing one falls back to Python
truthiness of the source value (None, zero and the empty string FAIL,
everything else PASSes). -/
theorem source_only_semantics (sv : Value) (cfg : TestConfig) :
    (∀ op q, parse_expected_condition cfg.source.expected = some (op, q) →
      compare_values sv vNone cfg =
        if apply_operator sv (vStr op) (vNum q) then "PASS" else "FAIL") ∧
    (parse_expected_condition cfg.source.expected = none →
      compare_values sv vNone cfg =
        match sv with
        | vNone => "FAIL"
        | vNum x => if x = 0 then "FAIL" else "PASS"
        | vStr s => if s = "" then "FAIL" else "PASS") := by
  have hcv : compare_values sv vNone cfg = compareSourceOnly sv cfg := by
    unfold compare_values
    rw [if_pos rfl]
  constructor
  · intro op q hp
    rw [hcv]
    unfold compareSourceOnly
    rw [hp]
  · intro hp
    rw [hcv]
    unfold compareSourceOnly
    rw [hp]
    cases sv with
    | vNone => rfl
    | vNum x => by_cases hx : x = 0 <;> simp [pyTruthy, hx]
    | vStr s => by_cases hs : s = "" <;> simp [pyTruthy, hs]

theorem source_only_semantics_witness :
    compare_values (vNum 1) vNone expConfig = "PASS" ∧
    compare_values (vNum 3) vNone expConfig = "FAIL" ∧
    compare_values (vNum 0) vNone emptyConfig = "FAIL" ∧
    compare_values (vStr "") vNone emptyConfig = "FAIL" ∧
    compare_values vNone vNone emptyConfig = "FAIL" ∧
    compare_values (vStr "x") vNone emptyConfig = "PASS" :=
  ⟨((source_only_semantics (vNum 1) expConfig).1 "<=" 2 (by decide)).trans (by decide),
   ((source_only_semantics (vNum 3) expConfig).1 "<=" 2 (by decide)).trans (by decide),
   ((source_only_semantics (vNum 0) emptyConfig).2 rfl).trans (by decide),
   ((source_only_semantics (vStr "") emptyConfig).2 rfl).trans (by decide),
   ((source_only_semantics vNone emptyConfig).2 rfl).trans (by decide),
   ((source_only_semantics (vStr "x") emptyConfig).2 rfl).trans (by decide)⟩

/-- C5: with present, unequal source and target: in absolute mode the verdict
is PASS iff abs(source - target) is at most the limit for numeric operands and
FAIL for non-numeric ones; with no threshold block at all, or a threshold
matching none of the three modes, the verdict is FAIL. -/
theorem absolute_threshold_and_default (sv tv : Value) (cfg : TestConfig)
    (hsv : sv ≠ vNone) (htv : tv ≠ vNone) (hne : pyEq sv tv = false) :
    (∀ th, cfg.comparisons.threshold = some th →
      pyEq th.value (vStr "absolute") = true → th.limit ≠ vNone →
      ((∀ s t l : ℚ, sv = vNum s → tv = vNum t → th.limit = vNum l →
        (compare_values sv tv cfg = "PASS" ↔ |s - t| ≤ l)) ∧
       (((∀ s : ℚ, sv ≠ vNum s) ∨ (∀ t : ℚ, tv ≠ vNum t)) →
        compare_values sv tv cfg = "FAIL"))) ∧
    (cfg.comparisons.threshold = none → compare_values sv tv cfg = "FAIL") ∧
    (∀ th, cfg.comparisons.threshold = some th →
      (pyTruthy th.condition && ! pyTruthy th.value) = false →
      (pyEq th.value (vStr "percentage") && (th.limit != vNone)) = false →
      (pyEq th.value (vStr "absolute") && (th.limit != vNone)) = false →
      compare_values sv tv cfg = "FAIL") := by
  refine ⟨fun th hth hv hl => ?_, fun hth => ?_, fun th hth g1 g2 g3 => ?_⟩
  · have hveq : th.value = vStr "absolute" := (pyEq_iff _ _).mp hv
    have g1 : (pyTruthy th.condition && ! pyTruthy th.value) = false := by
      rw [hveq]; simp [pyTruthy]
    have g2 : (pyEq th.value (vStr "percentage") && (th.limit != vNone)) = false := by
      rw [hveq, (by decide : pyEq (vStr "absolute") (vStr "percentage") = false)]
      simp
    have g3 : (pyEq th.value (vStr "absolute") && (th.limit != vNone)) = true := by
      rw [hv]; simpa [bne_iff_ne] using hl
    have hcv : compare_values sv tv cfg = absoluteCompare sv tv th.limit := by
      unfold compare_values
      rw [if_neg htv, hne, hth]
      simp only [g1, g2, g3]
      simp
    constructor
    · intro s t l hs ht hlim
      subst hs; subst ht
      rw [hcv, hlim]
      unfold absoluteCompare
      have hred : (match vNum s, vNum t, vNum l with
          | vNum s, vNum t, vNum l => if |s - t| > l then "FAIL" else "PASS"
          | _, _, _ => "FAIL") =
          (if |s - t| > l then "FAIL" else "PASS") := rfl
      rw [hred]
      rcases le_or_lt (|s - t|) l with hle | hgt
      · rw [if_neg (not_lt.mpr hle)]
        simp [hle]
      · rw [if_pos hgt]
        constructor
        · intro h; exact absurd h (by decide)
        · intro h; exact absurd h (not_le.mpr hgt)
    · intro hnn
      rw [hcv]
      unfold absoluteCompare
      rcases hnn with hnn | hnn
      · cases sv with
        | vNum s => exact absurd rfl (hnn s)
        | vNone => cases tv <;> rfl
        | vStr s => cases tv <;> rfl
      · cases tv with
        | vNum t => exact absurd rfl (hnn t)
        | vNone => cases sv <;> rfl
        | vStr t => cases sv <;> rfl
  · unfold compare_values
    rw [if_neg htv, hne, hth]
    simp
  · unfold compare_values
    rw [if_neg htv, hne, hth]
    simp only [g1, g2, g3]
    simp

theorem absolute_threshold_and_default_witness :
    compare_values (vNum 10) (vNum 7) absConfig = "PASS" ∧
    compare_values (vStr "a") (vNum 7) absConfig = "FAIL" ∧
    compare_values (vNum 5) (vNum 4) emptyConfig = "FAIL" ∧
    compare_values (vNum 5) (vNum 4) ⟨⟨vNone⟩, ⟨some ⟨vNone, vNone, vNone⟩⟩⟩ = "FAIL" :=
  ⟨(((absolute_threshold_and_default (vNum 10) (vNum 7) absConfig
      (by decide) (by decide) (by decide)).1 ⟨vNone, vStr "absolute", vNum 5⟩
      rfl (by decide) (by decide)).1 10 7 5 rfl rfl rfl).mpr
      (by rw [abs_of_nonneg (by norm_num)]; norm_num),
   ((absolute_threshold_and_default (vStr "a") (vNum 7) absConfig
      (by decide) (by decide) (by decide)).1 ⟨vNone, vStr "absolute", vNum 5⟩
      rfl (by decide) (by decide)).2
      (Or.inl fun s h => Value.noConfusion h),
   (absolute_threshold_and_default (vNum 5) (vNum 4) emptyConfig
      (by decide) (by decide) (by decide)).2.1 rfl,
   (absolute_threshold_and_default (vNum 5) (vNum 4)
      ⟨⟨vNone⟩, ⟨some ⟨vNone, vNone, vNone⟩⟩⟩
      (by decide) (by decide) (by decide)).2.2 ⟨vNone, vNone, vNone⟩ rfl
      (by decide) (by decide) (by decide)⟩

lemma compareSourceOnly_cases (v : Value) (c : TestConfig) :
    compareSourceOnly v c = "PASS" ∨ compareSourceOnly v c = "FAIL" := by
  unfold compareSourceOnly
  cases hp : parse_expected_condition c.source.expected with
  | none => cases hb : pyTruthy v <;> simp [hb]
  | some p =>
    obtain ⟨op, q⟩ := p
    cases hb : apply_operator v (vStr op) (vNum q) <;> simp [hb]

lemma percentageCompare_cases (a b l : Value) :
    percentageCompare a b l = "PASS" ∨ percentageCompare a b l = "FAIL" := by
  unfold percentageCompare
  repeat' first
  | (left ; rfl)
  | (right ; rfl)
  | split

lemma absoluteCompare_cases (a b l : Value) :
    absoluteCompare a b l = "PASS" ∨ absoluteCompare a b l = "FAIL" := by
  unfold absoluteCompare
  repeat' first
  | (left ; rfl)
  | (right ; rfl)
  | split

lemma strReplaceAux_no_occurrence (pat rep : List Char) :
    ∀ (fuel : Nat) (s : List Char), ¬ pat <:+: s → strReplaceAux fuel s pat rep = s := by
  intro fuel
  induction fuel with
  | zero => intro s _; rfl
  | succ n ih =>
    intro s hs
    cases s with
    | nil => rfl
    | cons c rest =>
      rw [strReplaceAux]
      have hpre : pat.isPrefixOf (c :: rest) = false := by
        rw [Bool.eq_false_iff]
        intro hp
        have hpfx := List.isPrefixOf_iff_prefix.mp hp
        exact hs (List.IsPrefix.isInfix hpfx)
      rw [hpre]
      simp only [Bool.and_false, Bool.if_false_left]
      have : ¬ pat <:+: rest := fun hinf => hs (List.infix_cons hinf)
      rw [ih rest this]
      simp

/-- A pattern with no occurrence in the text is never replaced: str.replace
only touches actual occurrences. -/
lemma pyReplace_no_occurrence (s pat rep : String) (h : ¬ pat.data <:+: s.data) :
    pyReplace s pat rep = s := by
  unfold pyReplace strReplace
  rw [strReplaceAux_no_occurrence pat.data rep.data s.data.length s.data h]

/-- C7: replace_placeholders_in_query is the identity when the source name has
no mapping entry or the entry lacks (has a falsy) release value; with a
complete entry it is exactly the two sequential literal substring
replacements of the uppercased CURR/PREV placeholders, and a query containing
neither placeholder as a substring comes back unchanged. -/
theorem replace_placeholders_semantics (query source_name : String) (mappings : Dict) :
    (dictLookup (vStr source_name) mappings = none →
      replace_placeholders_in_query query source_name mappings = .ok query) ∧
    (∀ m, dictLookup (vStr source_name) mappings = some m →
      (pyTruthy m.current_release = false ∨ pyTruthy m.previous_release = false) →
      replace_placeholders_in_query query source_name mappings = .ok query) ∧
    (∀ cur prev, dictLookup (vStr source_name) mappings = some ⟨vStr cur, vStr prev⟩ →
      cur ≠ "" → prev ≠ "" →
      replace_placeholders_in_query query source_name mappings =
        .ok (pyReplace (pyReplace query (pyUpper source_name ++ "_CURR_WEEK") cur)
          (pyUpper source_name ++ "_PREV_WEEK") prev)) ∧
    (∀ cur prev, dictLookup (vStr source_name) mappings = some ⟨vStr cur, vStr prev⟩ →
      cur ≠ "" → prev ≠ "" →
      ¬ ((pyUpper source_name ++ "_CURR_WEEK").data <:+: query.data) →
      ¬ ((pyUpper source_name ++ "_PREV_WEEK").data <:+: query.data) →
      replace_placeholders_in_query query source_name mappings = .ok query) := by
  have hmain : ∀ cur prev, dictLookup (vStr source_name) mappings = some ⟨vStr cur, vStr prev⟩ →
      cur ≠ "" → prev ≠ "" →
      replace_placeholders_in_query query source_name mappings =
        .ok (pyReplace (pyReplace query (pyUpper source_name ++ "_CURR_WEEK") cur)
          (pyUpper source_name ++ "_PREV_WEEK") prev) := by
    intro cur prev hl hcur hprev
    have hne : mappings.isEmpty = false := by
      cases mappings with
      | nil => exact absurd hl (by simp [dictLookup])
      | cons a rest => rfl
    unfold replace_placeholders_in_query
    rw [hne, hl]
    simp [pyTruthy, hcur, hprev]
  refine ⟨fun h => ?_, fun m hl hfalsy => ?_, hmain, fun cur prev hl hcur hprev hc hp => ?_⟩
  · unfold replace_placeholders_in_query
    cases he : mappings.isEmpty
    · rw [h]
      simp
    · simp [he]
  · have hne : mappings.isEmpty = false := by
      cases mappings with
      | nil => exact absurd hl (by simp [dictLookup])
      | cons a rest => rfl
    unfold replace_placeholders_in_query
    rw [hne, hl]
    rcases hfalsy with hf | hf <;> simp [hf]
  · rw [hmain cur prev hl hcur hprev,
      pyReplace_no_occurrence query (pyUpper source_name ++ "_CURR_WEEK") cur hc,
      pyReplace_no_occurrence query (pyUpper source_name ++ "_PREV_WEEK") prev hp]

theorem replace_placeholders_semantics_witness :
    replace_placeholders_in_query "SELECT * FROM BCBSA_CURR_WEEK" "bcbsa" bcbsaMappings =
      .ok "SELECT * FROM bcbsa_export1" ∧
    replace_placeholders_in_query "SELECT 1" "unknown" bcbsaMappings = .ok "SELECT 1" :=
  ⟨((replace_placeholders_semantics "SELECT * FROM BCBSA_CURR_WEEK" "bcbsa"
      bcbsaMappings).2.2.1 "bcbsa_export1" "bcbsa_export3" (by decide) (by decide)
      (by decide)).trans (congrArg Except.ok (by decide)),
   (replace_placeholders_semantics "SELECT 1" "unknown" bcbsaMappings).1 (by decide)⟩

/-- C6: compare_values is total over the embedded value and configuration
space: it always returns "PASS" or "FAIL" — never "INVALID", and every
locally modelled exception (type mismatch in an operator or in threshold
arithmetic, zero target in percentage mode) is absorbed into one of the two
verdicts rather than escaping. -/
theorem compare_values_total (sv tv : Value) (cfg : TestConfig) :
    compare_values sv tv cfg = "PASS" ∨ compare_values sv tv cfg = "FAIL" := by
  unfold compare_values
  repeat' first
  | exact compareSourceOnly_cases sv cfg
  | exact percentageCompare_cases _ _ _
  | exact absoluteCompare_cases _ _ _
  | (left ; rfl)
  | (right ; rfl)
  | split

/-- C8 counterexample: the mapping loop records the first TRUTHY candidate
field (Python `or`), not the first non-null one.  On a row whose
current_release is the empty string and whose curr_release_label is "x", the
code stores "x" while the first non-null of the two fields is "". -/
theorem mappings_not_first_non_null :
    dictLookup (vStr "s") (buildMappings [c8row] []) = some ⟨vStr "x", vStr "p"⟩ ∧
    firstNonNull (rowGet c8row "current_release") (rowGet c8row "curr_release_label") =
      vStr "" ∧
    (vStr "x" : Value) ≠ vStr "" := by
  decide

lemma dictLookup_insert (k k' : Value) (v : MappingEntry) (d : Dict) :
    dictLookup k (dictInsert k' v d) =
      if pyEq k k' then some v else dictLookup k d := by
  induction d with
  | nil => rfl
  | cons a rest ih =>
    obtain ⟨ka, va⟩ := a
    unfold dictInsert
    cases hb : pyEq k' ka
    · rw [if_neg (by simp [hb])]
      unfold dictLookup
      cases hka : pyEq k ka <;> cases hkk : pyEq k k' <;>
        simp [hka, hkk, ih]
      exact absurd (((pyEq_iff _ _).mp hka) ▸ ((pyEq_iff _ _).mp hkk) ▸ rfl : k' = ka)
        (by simpa [pyEq_false_iff] using hb)
    · rw [if_pos (by simp [hb])]
      have hka : k' = ka := (pyEq_iff _ _).mp hb
      unfold dictLookup
      cases hkk : pyEq k k'
      · rw [← hka]
        simp [hkk]
      · simp [hkk]

/-- C8 (amended): get_dataset_mappings skips rows without a "source" field,
keys entries by the source value of each row with later rows overwriting earlier
ones (lookup in the built dict is governed by the LAST qualifying row), and
extracts each release as the first TRUTHY of the two naming conventions
(Python `or`); rows using either naming convention carry over identically
whenever the carried values are truthy. -/
theorem build_mappings_semantics :
    (∀ (rows : List Row) (k : Value) (acc : Dict),
      dictLookup k (buildMappings rows acc) =
        match (rows.filter fun r => rowHas r "source").reverse.find?
            (fun r => pyEq k (rowGet r "source")) with
        | some r => some (rowEntry r)
        | none => dictLookup k acc) ∧
    (∀ (s cv pv : Value), pyTruthy cv = true → pyTruthy pv = true →
      buildMappings
        [[("source", s), ("current_release", cv), ("previous_release", pv)]] [] =
      buildMappings
        [[("source", s), ("curr_release_label", cv), ("prev_release_label", pv)]] []) := by
  constructor
  · intro rows
    induction rows with
    | nil => intro k acc; rfl
    | cons row rest ih =>
      intro k acc
      unfold buildMappings
      cases hs : rowHas row "source"
      · simp only [hs, Bool.false_eq_true, if_false]
        rw [List.filter_cons, if_neg (by simp [hs])]
        exact ih k acc
      · simp only [hs, if_true]
        rw [List.filter_cons, if_pos (by simp [hs]),
          ih k (dictInsert (rowGet row "source") (rowEntry row) acc),
          List.reverse_cons, List.find?_append]
        cases hf : (List.filter (fun r => rowHas r "source") rest).reverse.find?
            (fun r => pyEq k (rowGet r "source")) with
        | some r => rfl
        | none =>
          rw [dictLookup_insert]
          cases hk : pyEq k (rowGet row "source") <;>
            simp [List.find?, hk, Option.or]
  · intro s cv pv hcv hpv
    have h1 : pyOr cv vNone = cv := by unfold pyOr; rw [hcv]; rfl
    have h2 : pyOr pv vNone = pv := by unfold pyOr; rw [hpv]; rfl
    show [(s, (⟨pyOr cv vNone, pyOr pv vNone⟩ : MappingEntry))] =
      [(s, ⟨pyOr vNone cv, pyOr vNone pv⟩)]
    rw [h1, h2]
    rfl

theorem build_mappings_semantics_witness :
    dictLookup (vStr "s") (buildMappings [c8row] []) = some ⟨vStr "x", vStr "p"⟩ ∧
    buildMappings
      [[("source", vStr "s"), ("current_release", vStr "c1"),
        ("previous_release", vStr "p1")]] [] =
    buildMappings
      [[("source", vStr "s"), ("curr_release_label", vStr "c1"),
        ("prev_release_label", vStr "p1")]] [] :=
  ⟨(build_mappings_semantics.1 [c8row] (vStr "s") []).trans (by decide),
   build_mappings_semantics.2 (vStr "s") (vStr "c1") (vStr "p1")
     (by decide) (by decide)⟩

/-- C9: the preprocessor fast path with a missing config_query_key is the
identity for every connector; an error raised by the connector while fetching
mappings for a looked-up key propagates out of process_query; and the
execution-loop wrapper catches any process_query error and falls back to the
original query. -/
theorem preprocessing_error_fallback :
    (∀ (pq : List (String × String)) (query : String) (sn : Option String)
        (conn : String → Except PyErr (List Row)),
      process_query pq query none sn conn = .ok query) ∧
    (∀ (pq : List (String × String)) (query : String) (key : String)
        (sn : Option String) (conn : String → Except PyErr (List Row))
        (qtext : String) (e : PyErr),
      key ≠ "" → pq.lookup key = some qtext → conn qtext = .error e →
      process_query pq query (some key) sn conn = .error e) ∧
    (∀ (pq : List (String × String)) (query : String) (cqk : Option String)
        (sn : Option String) (conn : String → Except PyErr (List Row)) (e : PyErr),
      process_query pq query cqk sn conn = .error e →
      process_query_with_preprocessor (some pq) query cqk sn conn = query) := by
  refine ⟨fun pq query sn conn => rfl,
    fun pq query key sn conn qtext e hkey hlook hconn => ?_,
    fun pq query cqk sn conn e herr => ?_⟩
  · have hne : pq.isEmpty = false := by
      cases pq with
      | nil => exact absurd hlook (by simp [List.lookup])
      | cons a rest => rfl
    simp only [process_query, get_dataset_mappings, hne, hlook, hconn,
      Bool.false_eq_true, if_false]
    rw [if_neg hkey]
  · cases ht : optStrTruthy cqk <;>
      simp [process_query_with_preprocessor, ht, herr]

theorem preprocessing_error_fallback_witness :
    process_query [("k", "q1")] "QRY" none (some "s") failConnector = .ok "QRY" ∧
    process_query [("k", "q1")] "QRY" (some "k") (some "s") failConnector =
      .error (.connectorError "boom") ∧
    process_query_with_preprocessor (some [("k", "q1")]) "QRY" (some "k") (some "s")
      failConnector = "QRY" :=
  ⟨preprocessing_error_fallback.1 [("k", "q1")] "QRY" (some "s") failConnector,
   preprocessing_error_fallback.2.1 [("k", "q1")] "QRY" "k" (some "s") failConnector
     "q1" (.connectorError "boom") (by decide) rfl rfl,
   preprocessing_error_fallback.2.2 [("k", "q1")] "QRY" (some "k") (some "s")
     failConnector (.connectorError "boom")
     (preprocessing_error_fallback.2.1 [("k", "q1")] "QRY" "k" (some "s") failConnector
       "q1" (.connectorError "boom") (by decide) rfl rfl)⟩

/-- C10: an empty result sequence extracts to None, the first column of the
first row is extracted otherwise, and comparing against a None target is
exactly the source-only branch of the comparator (expected-condition or
truthiness). -/
theorem empty_result_source_only :
    (extract_value [] = .ok vNone) ∧
    (∀ (sv : Value) (cfg : TestConfig),
      compare_values sv vNone cfg = compareSourceOnly sv cfg) ∧
    (∀ (k : String) (v : Value) (r : List (String × Value)) (rest : List Row),
      extract_value (((k, v) :: r) :: rest) = .ok v) := by
  refine ⟨rfl, fun sv cfg => ?_, fun k v r rest => rfl⟩
  unfold compare_values
  rw [if_pos rfl]

theorem empty_result_source_only_witness :
    extract_value [] = .ok vNone ∧
    compare_values (vNum 3) vNone expConfig = compareSourceOnly (vNum 3) expConfig ∧
    extract_value [[("count", vNum 7), ("other", vNum 8)]] = .ok (vNum 7) :=
  ⟨empty_result_source_only.1,
   empty_result_source_only.2.1 (vNum 3) expConfig,
   empty_result_source_only.2.2 "count" (vNum 7) [("other", vNum 8)] []⟩

end DataQE
